import Mathlib

/-!
Verification development for the `compare_power_costs` repository.

The Python sources `compare_power_costs.py` and `current_peak_status.py` are
shallowly embedded below.  Timestamps (`datetime` objects) become a record of
natural-number fields; `float` quantities (kWh, dollar amounts, tariff rates)
are idealised as exact rationals; Python dictionaries keyed by month strings
become association lists that preserve insertion order; a Python statement
that raises an exception is modelled by an `Option`-valued function returning
`none` at the raising input.
-/

namespace ComparePowerCosts

set_option maxRecDepth 100000

/-- A wall-clock timestamp, mirroring the fields of Python's `datetime`
used by the program: year, month, day plus hour/minute/second/microsecond. -/
structure DateTime where
  year : Nat
  month : Nat
  day : Nat
  hour : Nat
  minute : Nat := 0
  second : Nat := 0
  microsecond : Nat := 0
  deriving DecidableEq, Repr

/-- Gregorian leap-year test. -/
def isLeap (y : Nat) : Bool :=
  y % 4 == 0 && (y % 100 != 0 || y % 400 == 0)

/-- Number of days in a month of a given year. -/
def daysInMonth (y m : Nat) : Nat :=
  match m with
  | 1 => 31 | 2 => if isLeap y then 29 else 28 | 3 => 31
  | 4 => 30 | 5 => 31 | 6 => 30
  | 7 => 31 | 8 => 31 | 9 => 30
  | 10 => 31 | 11 => 30 | 12 => 31
  | _ => 0

/-- A timestamp is valid when it denotes a real wall-clock instant of the
proleptic Gregorian calendar (as Python's `datetime` constructor enforces). -/
def DateTime.Valid (t : DateTime) : Prop :=
  1 ≤ t.year ∧ 1 ≤ t.month ∧ t.month ≤ 12 ∧ 1 ≤ t.day ∧
    t.day ≤ daysInMonth t.year t.month ∧ t.hour < 24 ∧ t.minute < 60 ∧
    t.second < 60 ∧ t.microsecond < 1000000

instance (t : DateTime) : Decidable t.Valid := by
  unfold DateTime.Valid; infer_instance

/-- Day count of a civil date (days since 0000-03-01 of the proleptic
Gregorian calendar), the standard days-from-civil computation that underlies
`datetime.weekday`. -/
def dayCount (y m d : Nat) : Nat :=
  let y' := y - (if m ≤ 2 then 1 else 0)
  let era := y' / 400
  let yoe := y' % 400
  let mp := if 2 < m then m - 3 else m + 9
  let doy := (153 * mp + 2) / 5 + (d - 1)
  let doe := yoe * 365 + yoe / 4 - yoe / 100 + doy
  era * 146097 + doe

/-- Python's `datetime.weekday()`: Monday = 0, ..., Sunday = 6. -/
def DateTime.weekday (t : DateTime) : Nat :=
  (dayCount t.year t.month t.day + 2) % 7

/-- A holiday calendar: membership test on a (year, month, day) triple, the
shape in which `is_peak_hour` consults its `rmp_holidays` argument. -/
def HolidayCalendar : Type := Nat × Nat × Nat → Bool

/-- `is_peak_hour` from `compare_power_costs.py`: a timestamp is on-peak when
its day is a non-holiday weekday and its hour lies in the season's peak set. -/
def is_peak_hour (date_object : DateTime) (rmp_holidays : HolidayCalendar) : Bool :=
  let usage_month := date_object.month
  let usage_hour := date_object.hour
  let summer_months : List Nat := [5, 6, 7, 8, 9]
  let peak_hours : List Nat :=
    if summer_months.contains usage_month then [15, 16, 17, 18, 19]
    else [8, 9, 15, 16, 17, 18, 19]
  let is_weekday := date_object.weekday < 5
  let is_holiday := rmp_holidays (date_object.year, date_object.month, date_object.day)
  let peak_day := is_weekday && !is_holiday
  peak_day && peak_hours.contains usage_hour

/-- The block-tariff low rate selected by `calculate_block_cost` for a
timestamp's month (summer billing months are June–September). -/
def block_low_rate (date_object : DateTime) : ℚ :=
  if ([6, 7, 8, 9] : List Nat).contains date_object.month then 0.1234294488
  else 0.1092297096

/-- The block-tariff high rate selected by `calculate_block_cost` for a
timestamp's month. -/
def block_high_rate (date_object : DateTime) : ℚ :=
  if ([6, 7, 8, 9] : List Nat).contains date_object.month then 0.160249512
  else 0.14181282

/-- `calculate_block_cost` from `compare_power_costs.py`: incremental cost of
`usage` kWh given `usage_sum` kWh already accumulated this month, with the
first 400 kWh of the month billed at the low rate and the rest at the high
rate. -/
def calculate_block_cost (date_object : DateTime) (usage usage_sum : ℚ) : ℚ :=
  let low_rate := block_low_rate date_object
  let high_rate := block_high_rate date_object
  if usage_sum + usage ≤ 400 then
    usage * low_rate
  else if usage_sum < 400 then
    let first_block_usage := 400 - usage_sum
    let second_block_usage := usage - first_block_usage
    first_block_usage * low_rate + second_block_usage * high_rate
  else
    usage * high_rate

/-- `calculate_ev_cost` from `compare_power_costs.py`: flat-rate time-of-use
cost of a single sample, returning the cost and the peak flag. -/
def calculate_ev_cost (date_object : DateTime) (usage : ℚ)
    (rmp_holidays : HolidayCalendar) : ℚ × Bool :=
  let peak_hour := is_peak_hour date_object rmp_holidays
  let hour_rate : ℚ := if peak_hour then 0.3466289504 else 0.0710998688
  (usage * hour_rate, peak_hour)

/-- The civil date preceding `(y, m, d)`. -/
def prevDate (y m d : Nat) : Nat × Nat × Nat :=
  if 1 < d then (y, m, d - 1)
  else if 1 < m then (y, m - 1, daysInMonth y (m - 1))
  else (y - 1, 12, 31)

/-- The civil date following `(y, m, d)`. -/
def nextDate (y m d : Nat) : Nat × Nat × Nat :=
  if d < daysInMonth y m then (y, m, d + 1)
  else if m < 12 then (y, m + 1, 1)
  else (y + 1, 1, 1)

/-- Weekday of a (year, month, day) triple, Monday = 0. -/
def weekdayYMD (y m d : Nat) : Nat :=
  (dayCount y m d + 2) % 7

/-- Weekend-shift rule for observed holidays: a nominal date falling on a
Saturday is observed the preceding Friday, on a Sunday the following Monday. -/
def observedShift (y m d : Nat) : Nat × Nat × Nat :=
  let w := weekdayYMD y m d
  if w = 5 then prevDate y m d
  else if w = 6 then nextDate y m d
  else (y, m, d)

/-- Day-of-month of the `n`-th weekday `w` (Monday = 0) of a month. -/
def nthWeekdayDay (y m w n : Nat) : Nat :=
  1 + (w + 7 - weekdayYMD y m 1) % 7 + 7 * (n - 1)

/-- Day-of-month of the last weekday `w` (Monday = 0) of a month. -/
def lastWeekdayDay (y m w : Nat) : Nat :=
  let L := daysInMonth y m
  L - (weekdayYMD y m L + 7 - w) % 7

/-- The observed dates of the eight Rocky Mountain Power holidays of a year:
New Year's Day (Jan 1), Presidents' Day (3rd Monday of February), Memorial
Day (last Monday of May), Independence Day (Jul 4), Pioneer Day (Jul 24),
Labor Day (1st Monday of September), Thanksgiving Day (4th Thursday of
November), Christmas Day (Dec 25); fixed dates take the weekend shift. -/
def holidayDates (y : Nat) : List (Nat × Nat × Nat) :=
  [observedShift y 1 1,
   (y, 2, nthWeekdayDay y 2 0 3),
   (y, 5, lastWeekdayDay y 5 0),
   observedShift y 7 4,
   observedShift y 7 24,
   (y, 9, nthWeekdayDay y 9 0 1),
   (y, 11, nthWeekdayDay y 11 3 4),
   observedShift y 12 25]

/-- Modelled from the spec: the `RockyMountainPowerHolidays` calendar.  The
source delegates the holiday-date computation to the third-party `holidays`
package (only the roster restriction lives in `compare_power_costs.py`), so
the calendar is reconstructed from the spec's Holiday Calendar contract: the
fixed 8-holiday roster with canonical per-year definitions, the
Saturday-to-Friday / Sunday-to-Monday observed shift, and membership by
calendar date.  A query also recognises next year's New Year's Day when its
observed date falls on December 31 of the queried year. -/
def rmpHolidays : HolidayCalendar := fun ymd =>
  (holidayDates ymd.1).contains ymd || observedShift (ymd.1 + 1) 1 1 == ymd

/-- The season's peak-hour set as the code selects it: summer months (May
through September) use hours 15–19, all other months add hours 8 and 9. -/
def seasonPeakSet (m : Nat) : Finset Nat :=
  if m ∈ ({5, 6, 7, 8, 9} : Finset Nat) then {15, 16, 17, 18, 19}
  else {8, 9, 15, 16, 17, 18, 19}

/-- Day of 2024 used to exhibit attainability of each month's peak hours:
the first Tuesday of the month, never an RMP holiday. -/
def firstTuesday2024 (m : Nat) : Nat :=
  match m with
  | 1 => 2 | 2 => 6 | 3 => 5 | 4 => 2 | 5 => 7 | 6 => 4
  | 7 => 2 | 8 => 6 | 9 => 3 | 10 => 1 | 11 => 5 | _ => 3

/-- Python's `round` to an integer, idealised over the rationals:
round-half-to-even. -/
def pyRound (x : ℚ) : ℤ :=
  if x - ⌊x⌋ < 1 / 2 then ⌊x⌋
  else if 1 / 2 < x - ⌊x⌋ then ⌊x⌋ + 1
  else if ⌊x⌋ % 2 = 0 then ⌊x⌋ else ⌊x⌋ + 1

/-- Python's `round(x, 3)`: round to three decimal places, half to even. -/
def round3 (x : ℚ) : ℚ :=
  (pyRound (1000 * x) : ℚ) / 1000

/-- The running totals a month's dictionary holds while samples are folded:
`kWh`, `block_cost`, `ev_cost`, `sum_peak_kWh`. -/
structure MonthRecord where
  kWh : ℚ
  block_cost : ℚ
  ev_cost : ℚ
  sum_peak_kWh : ℚ
  deriving DecidableEq, Repr

/-- A finalized summary record: the four rounded totals plus the derived
`difference` and `off_peak_%` fields. -/
structure SummaryRecord where
  kWh : ℚ
  block_cost : ℚ
  ev_cost : ℚ
  sum_peak_kWh : ℚ
  difference : ℚ
  off_peak_percent : ℚ
  deriving DecidableEq, Repr

/-- Python's `str(month).zfill(2)`. -/
def zfill2 (s : String) : String :=
  if s.length < 2 then "0" ++ s else s

/-- The month key `f"{year}-{str(month).zfill(2)}"`. -/
def month_key (t : DateTime) : String :=
  toString t.year ++ "-" ++ zfill2 (toString t.month)

/-- Dictionary lookup in the insertion-ordered month map. -/
def lookupMonth (k : String) : List (String × MonthRecord) → Option MonthRecord
  | [] => none
  | (k', r) :: rest => if k' = k then some r else lookupMonth k rest

/-- Dictionary update: replace the record at an existing key, else append
the key at the end (Python dicts preserve insertion order). -/
def setMonth (k : String) (r : MonthRecord) :
    List (String × MonthRecord) → List (String × MonthRecord)
  | [] => [(k, r)]
  | (k', r') :: rest => if k' = k then (k, r) :: rest else (k', r') :: setMonth k r rest

/-- The zero-initialised record a month starts from. -/
def initRecord : MonthRecord := ⟨0, 0, 0, 0⟩

/-- One iteration of the sample loop of
`many_month_usage_summary_from_hourly_entries`: lazily initialise the
month's record, charge the block cost against the month's cumulative kWh so
far, add the EV cost, and accumulate peak kWh. -/
def foldSample (rmp_holidays : HolidayCalendar) (st : List (String × MonthRecord))
    (e : DateTime × ℚ) : List (String × MonthRecord) :=
  let key := month_key e.1
  let cur := (lookupMonth key st).getD initRecord
  let block_cost := calculate_block_cost e.1 e.2 cur.kWh
  let ev := calculate_ev_cost e.1 e.2 rmp_holidays
  let updated : MonthRecord :=
    { kWh := cur.kWh + e.2
      block_cost := cur.block_cost + block_cost
      ev_cost := cur.ev_cost + ev.1
      sum_peak_kWh := cur.sum_peak_kWh + (if ev.2 then e.2 else 0) }
  setMonth key updated st

/-- The month map after folding all hourly entries, before finalization. -/
def month_sums (hourly_entries : List (DateTime × ℚ))
    (rmp_holidays : HolidayCalendar) : List (String × MonthRecord) :=
  hourly_entries.foldl (foldSample rmp_holidays) []

/-- Finalization of one month's record: derive `difference` and
`off_peak_%` from the unrounded totals and round every field to three
decimals.  A month with zero total kWh raises `ZeroDivisionError` in the
source, modelled by `none`. -/
def finalizeMonth (r : MonthRecord) : Option SummaryRecord :=
  if r.kWh = 0 then none
  else some
    { kWh := round3 r.kWh
      block_cost := round3 r.block_cost
      ev_cost := round3 r.ev_cost
      sum_peak_kWh := round3 r.sum_peak_kWh
      difference := round3 (r.block_cost - r.ev_cost)
      off_peak_percent := round3 (100 * (r.kWh - r.sum_peak_kWh) / r.kWh) }

/-- Finalize every month in order; the first zero-kWh month aborts the whole
computation, as the uncaught exception does in the source. -/
def finalizeAll : List (String × MonthRecord) → Option (List (String × SummaryRecord))
  | [] => some []
  | (k, r) :: rest =>
    match finalizeMonth r with
    | none => none
    | some fr =>
      match finalizeAll rest with
      | none => none
      | some frs => some ((k, fr) :: frs)

/-- The overall kWh total accumulated from the unrounded month records. -/
def overallKWh (ms : List (String × MonthRecord)) : ℚ :=
  (ms.map (fun kr => kr.2.kWh)).sum

/-- The `"SUMMARY"` record: every overall accumulator is the sum of the
corresponding unrounded month totals, rounded (and divided) exactly as the
per-month derived fields are. -/
def summaryRecord (ms : List (String × MonthRecord)) : SummaryRecord :=
  { kWh := round3 (overallKWh ms)
    block_cost := round3 (ms.map (fun kr => kr.2.block_cost)).sum
    ev_cost := round3 (ms.map (fun kr => kr.2.ev_cost)).sum
    sum_peak_kWh := round3 (ms.map (fun kr => kr.2.sum_peak_kWh)).sum
    difference := round3 ((ms.map (fun kr => kr.2.block_cost)).sum -
      (ms.map (fun kr => kr.2.ev_cost)).sum)
    off_peak_percent := round3 (100 *
      (overallKWh ms - (ms.map (fun kr => kr.2.sum_peak_kWh)).sum) / overallKWh ms) }

/-- `many_month_usage_summary_from_hourly_entries` from
`compare_power_costs.py`: fold all samples into per-month records, finalize
each month, and append the overall `"SUMMARY"` record built from the
unrounded totals.  `none` models the `ZeroDivisionError` raised when a
month (or the overall input) has zero total kWh. -/
def many_month_usage_summary_from_hourly_entries
    (hourly_entries : List (DateTime × ℚ)) (rmp_holidays : HolidayCalendar) :
    Option (List (String × SummaryRecord)) :=
  match finalizeAll (month_sums hourly_entries rmp_holidays) with
  | none => none
  | some finals =>
    if overallKWh (month_sums hourly_entries rmp_holidays) = 0 then none
    else some (finals ++
      [("SUMMARY", summaryRecord (month_sums hourly_entries rmp_holidays))])

/-- The per-month block-cost fold the aggregator performs: each sample is
charged `calculate_block_cost` against the running cumulative total, which
then grows by the sample's usage. -/
def blockFoldTotal (t : DateTime) : ℚ → List ℚ → ℚ
  | _, [] => 0
  | c, u :: rest => calculate_block_cost t u c + blockFoldTotal t (c + u) rest

/-- The 24 hourly 1 kWh samples of one January 2024 day. -/
def dayEntries (d : Nat) : List (DateTime × ℚ) :=
  (List.range 24).map (fun h => (⟨2024, 1, d, h, 0, 0, 0⟩, 1))

/-- Every hour of January 2024 as a 1 kWh sample, in chronological order. -/
def januaryEntries : List (DateTime × ℚ) :=
  (List.range 31).flatMap (fun d => dayEntries (d + 1))

/-- `date_object.replace(minute=0, second=0, microsecond=0)`. -/
def DateTime.replaceToHour (t : DateTime) : DateTime :=
  { t with minute := 0, second := 0, microsecond := 0 }

/-- `iter_datetime + timedelta(hours=1)` for the hour-aligned iterates of the
peak-change loop: advance the hour, rolling the civil date over at
midnight. -/
def addOneHour (t : DateTime) : DateTime :=
  if t.hour + 1 < 24 then { t with hour := t.hour + 1 }
  else
    { year := (nextDate t.year t.month t.day).1
      month := (nextDate t.year t.month t.day).2.1
      day := (nextDate t.year t.month t.day).2.2
      hour := 0
      minute := t.minute
      second := t.second
      microsecond := t.microsecond }

/-- A timestamp as a count of microseconds on the `dayCount` time line, the
value Python's `timedelta` subtraction is computed from. -/
def toMicroseconds (t : DateTime) : ℤ :=
  ((((dayCount t.year t.month t.day * 24 + t.hour) * 60 + t.minute) * 60
      + t.second : Nat) : ℤ) * 1000000 + t.microsecond

/-- The `while` loop of `find_next_peak_change`: step forward one hour at a
time until the peak status differs from `initial_peak`.  The loop has no
bound in the source; a fuel of `1000` iterations (more than 41 days) models
it, `none` standing for non-termination within that budget. -/
def findNextPeakChangeAux (rmp_holidays : HolidayCalendar) (initial_peak : Bool) :
    Nat → DateTime → Option DateTime
  | 0, _ => none
  | fuel + 1, cur =>
    if is_peak_hour cur rmp_holidays = initial_peak then
      findNextPeakChangeAux rmp_holidays initial_peak fuel (addOneHour cur)
    else some cur

/-- `find_next_peak_change` from `current_peak_status.py`, returning the
`timedelta` as a count of microseconds.  When the input timestamp is already
hour-aligned (zero minutes, seconds and microseconds), the source never
assigns `iter_datetime` and the `while` condition raises `UnboundLocalError`;
that crash is modelled by `none`. -/
def find_next_peak_change (date_object : DateTime)
    (rmp_holidays : HolidayCalendar) : Option ℤ :=
  if date_object.minute ≠ 0 ∨ date_object.second ≠ 0 ∨ date_object.microsecond ≠ 0 then
    match findNextPeakChangeAux rmp_holidays (is_peak_hour date_object rmp_holidays)
        1000 (addOneHour date_object.replaceToHour) with
    | some iter_datetime => some (toMicroseconds iter_datetime - toMicroseconds date_object)
    | none => none
  else none

/-- Cost of reaching cumulative total `s` from zero under the month's
two-tier rates: the first 400 kWh at the low rate, the excess at the high
rate. -/
def tierTotal (t : DateTime) (s : ℚ) : ℚ :=
  block_low_rate t * min s 400 + block_high_rate t * max (s - 400) 0

/-- The claimed invariant on a month's running record. -/
def RecInv (r : MonthRecord) : Prop :=
  0 ≤ r.sum_peak_kWh ∧ r.sum_peak_kWh ≤ r.kWh

/-- Validity of a civil (year, month, day) triple. -/
def ValidDate (p : Nat × Nat × Nat) : Prop :=
  1 ≤ p.1 ∧ 1 ≤ p.2.1 ∧ p.2.1 ≤ 12 ∧ 1 ≤ p.2.2 ∧ p.2.2 ≤ daysInMonth p.1 p.2.1

/-- `nextDate` iterated `k` times. -/
def nextDateIter : Nat → Nat × Nat × Nat → Nat × Nat × Nat
  | 0, p => p
  | k + 1, p => nextDateIter k (nextDate p.1 p.2.1 p.2.2)

/-- The holiday dates a 28-day window starting in year `y` can meet. -/
def windowHolidayPool (y : Nat) : Finset (Nat × Nat × Nat) :=
  (holidayDates y ++ holidayDates (y + 1) ++
    [observedShift (y + 1) 1 1, observedShift (y + 2) 1 1]).toFinset

/-- `pyRound` never moves past the two integers enclosing its argument. -/
lemma pyRound_bounds (x : ℚ) : ⌊x⌋ ≤ pyRound x ∧ pyRound x ≤ ⌊x⌋ + 1 := by
  unfold pyRound
  split_ifs <;> omega

/-- Round-half-to-even is monotone. -/
lemma pyRound_mono {x y : ℚ} (h : x ≤ y) : pyRound x ≤ pyRound y := by
  by_cases hfl : ⌊x⌋ < ⌊y⌋
  · calc pyRound x ≤ ⌊x⌋ + 1 := (pyRound_bounds x).2
    _ ≤ ⌊y⌋ := by omega
    _ ≤ pyRound y := (pyRound_bounds y).1
  · have hfe : ⌊x⌋ = ⌊y⌋ := le_antisymm (Int.floor_le_floor h) (not_lt.mp hfl)
    unfold pyRound
    rw [hfe]
    split_ifs <;> first | omega | linarith

lemma pyRound_zero : pyRound 0 = 0 := by
  unfold pyRound
  norm_num

/-- Rounding to three decimals is monotone. -/
lemma round3_mono {x y : ℚ} (h : x ≤ y) : round3 x ≤ round3 y := by
  unfold round3
  have := pyRound_mono (show 1000 * x ≤ 1000 * y by linarith)
  have hcast : ((pyRound (1000 * x) : ℚ)) ≤ (pyRound (1000 * y) : ℚ) := by
    exact_mod_cast this
  linarith

lemma round3_nonneg {x : ℚ} (h : 0 ≤ x) : 0 ≤ round3 x := by
  have := round3_mono h
  unfold round3 at this ⊢
  rw [show (1000 : ℚ) * 0 = 0 by ring, pyRound_zero] at this
  simpa using this

/-- A successful dictionary lookup is list membership. -/
lemma lookupMonth_mem {k : String} {st : List (String × MonthRecord)} {r : MonthRecord}
    (h : lookupMonth k st = some r) : (k, r) ∈ st := by
  induction st with
  | nil => simp [lookupMonth] at h
  | cons hd tl ih =>
    unfold lookupMonth at h
    split at h
    · cases h
      rename_i heq
      exact heq ▸ List.mem_cons_self hd tl
    · exact List.mem_cons_of_mem hd (ih h)

/-- Every member of an updated dictionary is the new entry or an old one. -/
lemma setMonth_mem {k : String} {r : MonthRecord} {st : List (String × MonthRecord)}
    {kr : String × MonthRecord} (h : kr ∈ setMonth k r st) : kr = (k, r) ∨ kr ∈ st := by
  induction st with
  | nil => simpa [setMonth] using h
  | cons hd tl ih =>
    unfold setMonth at h
    split at h
    · rcases List.mem_cons.mp h with h1 | h1
      · exact Or.inl h1
      · exact Or.inr (List.mem_cons_of_mem hd h1)
    · rcases List.mem_cons.mp h with h1 | h1
      · exact Or.inr (h1 ▸ List.mem_cons_self hd tl)
      · rcases ih h1 with h2 | h2
        · exact Or.inl h2
        · exact Or.inr (List.mem_cons_of_mem hd h2)

/-- Folding one non-negative sample preserves the peak-kWh invariant. -/
lemma foldSample_inv {H : HolidayCalendar} {st : List (String × MonthRecord)}
    {e : DateTime × ℚ} (hst : ∀ kr ∈ st, RecInv kr.2) (hu : 0 ≤ e.2) :
    ∀ kr ∈ foldSample H st e, RecInv kr.2 := by
  intro kr hkr
  unfold foldSample at hkr
  rcases setMonth_mem hkr with rfl | hmem
  · have hcur : RecInv ((lookupMonth (month_key e.1) st).getD initRecord) := by
      cases hl : lookupMonth (month_key e.1) st with
      | none => exact ⟨le_rfl, le_rfl⟩
      | some r => exact hst _ (lookupMonth_mem hl)
    constructor
    · have : (0 : ℚ) ≤ (if (calculate_ev_cost e.1 e.2 H).2 then e.2 else 0) := by
        split <;> simp [hu]
      simpa using add_nonneg hcur.1 this
    · have : (if (calculate_ev_cost e.1 e.2 H).2 then e.2 else 0) ≤ e.2 := by
        split <;> simp [hu]
      simpa using add_le_add hcur.2 this
  · exact hst kr hmem

/-- Folding any list of non-negative samples preserves the invariant. -/
lemma month_sums_inv (H : HolidayCalendar) (entries : List (DateTime × ℚ)) :
    ∀ st, (∀ kr ∈ st, RecInv kr.2) → (∀ e ∈ entries, 0 ≤ e.2) →
      ∀ kr ∈ entries.foldl (foldSample H) st, RecInv kr.2 := by
  induction entries with
  | nil => intro st hst _; simpa using hst
  | cons e es ih =>
    intro st hst hnn
    exact ih (foldSample H st e)
      (foldSample_inv hst (hnn e (List.mem_cons_self e es)))
      (fun x hx => hnn x (List.mem_cons_of_mem e hx))

/-- C1: for every timestamp, `is_peak_hour` returns true iff the weekday is
Monday–Friday, the date is not a holiday per the holiday calendar, and the
hour lies in the season's peak-hour set (months 5–9 select {15,…,19}, all
other months {8,9,15,…,19}); in particular it is false on every Saturday,
Sunday or holiday date regardless of hour. -/
theorem C1_is_peak_hour_iff (t : DateTime) (H : HolidayCalendar) :
    (is_peak_hour t H = true ↔
      t.weekday < 5 ∧ H (t.year, t.month, t.day) = false ∧
        t.hour ∈ seasonPeakSet t.month) ∧
    ((5 ≤ t.weekday ∨ H (t.year, t.month, t.day) = true) →
      is_peak_hour t H = false) := by
  have hmem : ∀ (l : List Nat) (n : Nat), l.contains n = true ↔ n ∈ l :=
    fun l n => List.elem_iff
  constructor
  · unfold is_peak_hour seasonPeakSet
    cases hH : H (t.year, t.month, t.day) <;>
      by_cases hm : t.month ∈ ({5, 6, 7, 8, 9} : Finset Nat) <;>
      by_cases hw : t.weekday < 5 <;>
      simp_all [hmem]
  · intro h
    unfold is_peak_hour
    rcases h with h | h
    · simp [show ¬ (t.weekday < 5) by omega]
    · simp [h]

/-- C1 witness: a concrete on-peak instance (Wednesday 2024-07-10 16:00 with
no holidays) and a concrete Sunday instance where the theorem forces
`is_peak_hour` to be false. -/
theorem C1_is_peak_hour_iff_witness :
    is_peak_hour ⟨2024, 7, 10, 16, 0, 0, 0⟩ rmpHolidays = true ∧
    is_peak_hour ⟨2024, 7, 7, 16, 0, 0, 0⟩ rmpHolidays = false :=
  ⟨(C1_is_peak_hour_iff ⟨2024, 7, 10, 16, 0, 0, 0⟩ rmpHolidays).1.mpr
      ⟨by decide, by decide, by decide⟩,
   (C1_is_peak_hour_iff ⟨2024, 7, 7, 16, 0, 0, 0⟩ rmpHolidays).2 (Or.inl (by decide))⟩

/-- C2: for every timestamp and every non-negative usage `u` and monthly
cumulative `c`, `calculate_block_cost` bills entirely at the low rate when
`c + u ≤ 400`, splits at the 400 kWh boundary when `c < 400 < c + u`, and
bills entirely at the high rate when `c ≥ 400`, with the seasonal rates of
the timestamp's month; in particular `c = 395, u = 10` costs
`5·low + 5·high`. -/
theorem C2_calculate_block_cost_cases (t : DateTime) (u c : ℚ)
    (hu : 0 ≤ u) (hc : 0 ≤ c) :
    (c + u ≤ 400 → calculate_block_cost t u c = u * block_low_rate t) ∧
    (c < 400 → 400 < c + u →
      calculate_block_cost t u c =
        (400 - c) * block_low_rate t + (c + u - 400) * block_high_rate t) ∧
    (400 ≤ c → calculate_block_cost t u c = u * block_high_rate t) ∧
    calculate_block_cost t 10 395 = 5 * block_low_rate t + 5 * block_high_rate t := by
  refine ⟨?_, ?_, ?_, ?_⟩
  · intro h
    unfold calculate_block_cost
    rw [if_pos h]
  · intro h1 h2
    unfold calculate_block_cost
    rw [if_neg (by linarith), if_pos h1]
    ring
  · intro h
    unfold calculate_block_cost
    by_cases hle : c + u ≤ 400
    · have hu0 : u = 0 := by linarith
      rw [if_pos hle, hu0]
      ring
    · rw [if_neg hle, if_neg (by linarith)]
  · unfold calculate_block_cost
    norm_num

/-- C2 witness: the 395 + 10 boundary instance on a winter date. -/
theorem C2_calculate_block_cost_cases_witness :
    (0 : ℚ) ≤ 10 ∧ (0 : ℚ) ≤ 395 ∧
      calculate_block_cost ⟨2024, 1, 1, 0, 0, 0, 0⟩ 10 395 =
        5 * block_low_rate ⟨2024, 1, 1, 0, 0, 0, 0⟩ +
          5 * block_high_rate ⟨2024, 1, 1, 0, 0, 0, 0⟩ :=
  ⟨by norm_num, by norm_num,
    (C2_calculate_block_cost_cases ⟨2024, 1, 1, 0, 0, 0, 0⟩ 10 395
      (by norm_num) (by norm_num)).2.2.2⟩

/-- C5 counterexample: the claim assigns May the winter peak-hour set
{8,9,15,…,19}, but on Wednesday 2024-05-01 (a non-holiday weekday) hour 8 is
not peak: the code treats May as a summer month. -/
theorem C5_counterexample :
    (⟨2024, 5, 1, 8, 0, 0, 0⟩ : DateTime).weekday < 5 ∧
    rmpHolidays (2024, 5, 1) = false ∧
    is_peak_hour ⟨2024, 5, 1, 8, 0, 0, 0⟩ rmpHolidays = false := by decide

/-- C5 (amended): for months {5,6,7,8,9} — May included — the attainable
peak-hour set is exactly {15,…,19}, and for all other months exactly
{8,9,15,…,19}: every peak timestamp's hour lies in its month's set, and
every hour of the set is attained on a concrete non-holiday weekday. -/
theorem C5_season_peak_sets :
    (∀ (t : DateTime) (H : HolidayCalendar),
      is_peak_hour t H = true → t.hour ∈ seasonPeakSet t.month) ∧
    (∀ m ∈ Finset.Icc 1 12, ∀ h ∈ seasonPeakSet m,
      is_peak_hour ⟨2024, m, firstTuesday2024 m, h, 0, 0, 0⟩ rmpHolidays = true) := by
  constructor
  · intro t H hp
    unfold is_peak_hour at hp
    unfold seasonPeakSet
    have hmem : ∀ (l : List Nat) (n : Nat), l.contains n = true ↔ n ∈ l :=
      fun l n => List.elem_iff
    by_cases hm : t.month ∈ ({5, 6, 7, 8, 9} : Finset Nat) <;> simp_all [hmem]
  · decide

/-- C5 witness: hour 16 of a July peak timestamp lies in July's set, and
July's set member 16 is attained on 2024-07-02. -/
theorem C5_season_peak_sets_witness :
    (16 : Nat) ∈ seasonPeakSet 7 ∧
    is_peak_hour ⟨2024, 7, firstTuesday2024 7, 16, 0, 0, 0⟩ rmpHolidays = true :=
  ⟨C5_season_peak_sets.1 ⟨2024, 7, 2, 16, 0, 0, 0⟩ rmpHolidays (by decide),
   C5_season_peak_sets.2 7 (by decide) 16
     (C5_season_peak_sets.1 ⟨2024, 7, 2, 16, 0, 0, 0⟩ rmpHolidays (by decide))⟩

/-- C7: for every timestamp and usage, `calculate_ev_cost` returns
`(u · on_peak_rate, true)` on peak hours and `(u · off_peak_rate, false)`
otherwise, with the two fixed fee/tax-uplifted rate constants; the result
depends only on the single sample. -/
theorem C7_calculate_ev_cost_contract (t : DateTime) (H : HolidayCalendar) (u : ℚ) :
    (is_peak_hour t H = true → calculate_ev_cost t u H = (u * 0.3466289504, true)) ∧
    (is_peak_hour t H = false → calculate_ev_cost t u H = (u * 0.0710998688, false)) := by
  unfold calculate_ev_cost
  cases h : is_peak_hour t H <;> simp

/-- C7 witness: a Sunday-3pm sample bills at the off-peak rate and a
non-holiday Wednesday-4pm July sample bills at the on-peak rate. -/
theorem C7_calculate_ev_cost_contract_witness :
    calculate_ev_cost ⟨2024, 7, 7, 15, 0, 0, 0⟩ 2 rmpHolidays = (2 * 0.0710998688, false) ∧
    calculate_ev_cost ⟨2024, 7, 10, 16, 0, 0, 0⟩ 2 rmpHolidays = (2 * 0.3466289504, true) :=
  ⟨(C7_calculate_ev_cost_contract ⟨2024, 7, 7, 15, 0, 0, 0⟩ rmpHolidays 2).2 (by decide),
   (C7_calculate_ev_cost_contract ⟨2024, 7, 10, 16, 0, 0, 0⟩ rmpHolidays 2).1 (by decide)⟩

/-- Per-sample lemma behind C6: for non-negative usage and cumulative total,
a sample's block cost is the increase of the tier-total function. -/
lemma calculate_block_cost_eq_tier (t : DateTime) (u c : ℚ) (hu : 0 ≤ u) (hc : 0 ≤ c) :
    calculate_block_cost t u c = tierTotal t (c + u) - tierTotal t c := by
  unfold calculate_block_cost tierTotal
  rcases le_or_lt (c + u) 400 with h | h
  · rw [if_pos (by linarith), min_eq_left h, min_eq_left (by linarith),
      max_eq_right (by linarith), max_eq_right (by linarith)]
    ring
  · rw [if_neg (by linarith)]
    by_cases h2 : c < 400
    · rw [if_pos h2, min_eq_right (by linarith), min_eq_left (by linarith),
        max_eq_left (by linarith), max_eq_right (by linarith)]
      ring
    · rw [if_neg h2, min_eq_right (by linarith), min_eq_right (by linarith),
        max_eq_left (by linarith), max_eq_left (by linarith)]
      ring

/-- The block-cost fold telescopes: starting from cumulative `c`, the total
cost of a sample list is the increase of the tier-total function. -/
lemma blockFoldTotal_eq_tier (t : DateTime) (xs : List ℚ) :
    ∀ c : ℚ, 0 ≤ c → (∀ x ∈ xs, 0 ≤ x) →
      blockFoldTotal t c xs = tierTotal t (c + xs.sum) - tierTotal t c := by
  induction xs with
  | nil => intro c _ _; simp [blockFoldTotal]
  | cons x xs ih =>
    intro c hc hxs
    have hx : 0 ≤ x := hxs x (List.mem_cons_self x xs)
    rw [blockFoldTotal, calculate_block_cost_eq_tier t x c hx hc,
      ih (c + x) (by linarith) (fun y hy => hxs y (List.mem_cons_of_mem x hy)),
      List.sum_cons]
    ring_nf

/-- C6: for a fixed month and a finite sequence of non-negative usage
samples, the total of the per-sample block costs folded over the running
cumulative total is invariant under permutation of the samples, and equals
`low·min(total,400) + high·max(total−400,0)` — a function of the cumulative
total only. -/
theorem C6_block_cost_permutation_invariant (t : DateTime) (xs ys : List ℚ)
    (hperm : xs.Perm ys) (hnn : ∀ x ∈ xs, 0 ≤ x) :
    blockFoldTotal t 0 xs = blockFoldTotal t 0 ys ∧
    blockFoldTotal t 0 xs =
      block_low_rate t * min xs.sum 400 + block_high_rate t * max (xs.sum - 400) 0 := by
  have h0 : tierTotal t 0 = 0 := by
    unfold tierTotal
    rw [min_eq_left (by norm_num), max_eq_right (by norm_num)]
    ring
  have hx := blockFoldTotal_eq_tier t xs 0 le_rfl hnn
  have hy := blockFoldTotal_eq_tier t ys 0 le_rfl
    (fun y hy => hnn y (hperm.mem_iff.mpr hy))
  rw [hx, hy, hperm.sum_eq, h0, sub_zero, zero_add]
  exact ⟨rfl, rfl⟩

/-- C6 witness: the two orderings of {300, 200} kWh in January cost the
same. -/
theorem C6_block_cost_permutation_invariant_witness :
    (([300, 200] : List ℚ).Perm [200, 300]) ∧
    blockFoldTotal ⟨2024, 1, 1, 0, 0, 0, 0⟩ 0 [300, 200] =
      blockFoldTotal ⟨2024, 1, 1, 0, 0, 0, 0⟩ 0 [200, 300] :=
  ⟨List.Perm.swap 200 300 [],
   (C6_block_cost_permutation_invariant ⟨2024, 1, 1, 0, 0, 0, 0⟩ [300, 200] [200, 300]
      (List.Perm.swap 200 300 []) (by norm_num)).1⟩

/-- A zero-kWh month makes the finalization pass abort. -/
lemma finalizeAll_eq_none (ms : List (String × MonthRecord))
    (h : ∃ kr ∈ ms, kr.2.kWh = 0) : finalizeAll ms = none := by
  induction ms with
  | nil => obtain ⟨kr, hmem, _⟩ := h; exact absurd hmem (List.not_mem_nil kr)
  | cons hd tl ih =>
    obtain ⟨kr, hmem, hz⟩ := h
    unfold finalizeAll
    rcases List.mem_cons.mp hmem with rfl | hmem'
    · unfold finalizeMonth
      rw [if_pos hz]
    · cases hf : finalizeMonth hd.2 with
      | none => rfl
      | some fr => rw [ih ⟨kr, hmem', hz⟩]

/-- C8: if the input samples produce a month whose total kWh is zero, the
aggregator's finalization signals the off-peak-percentage division by zero
as a computation error (the whole computation yields the error value `none`,
modelling the uncaught `ZeroDivisionError`) instead of producing output. -/
theorem C8_zero_month_signals_error (entries : List (DateTime × ℚ))
    (H : HolidayCalendar) (h : ∃ kr ∈ month_sums entries H, kr.2.kWh = 0) :
    many_month_usage_summary_from_hourly_entries entries H = none := by
  unfold many_month_usage_summary_from_hourly_entries
  rw [finalizeAll_eq_none _ h]

/-- C8 witness: a single zero-usage January sample produces a zero-kWh month
and the aggregator reports the error. -/
theorem C8_zero_month_signals_error_witness :
    many_month_usage_summary_from_hourly_entries
      [(⟨2024, 1, 1, 0, 0, 0, 0⟩, 0)] rmpHolidays = none :=
  C8_zero_month_signals_error [(⟨2024, 1, 1, 0, 0, 0, 0⟩, 0)] rmpHolidays
    ⟨("2024-01", ⟨0, 0, 0, 0⟩), by with_unfolding_all exact ⟨List.Mem.head _, rfl⟩⟩

/-- A successfully finalized month record inherits the peak-kWh invariant
from the running record (rounding is monotone and fixes zero). -/
lemma finalizeMonth_inv {r : MonthRecord} {fr : SummaryRecord}
    (h : finalizeMonth r = some fr) (hr : RecInv r) :
    0 ≤ fr.sum_peak_kWh ∧ fr.sum_peak_kWh ≤ fr.kWh := by
  unfold finalizeMonth at h
  split at h
  · cases h
  · cases h
    exact ⟨round3_nonneg hr.1, round3_mono hr.2⟩

/-- Every record of a successful finalization pass satisfies the peak-kWh
invariant. -/
lemma finalizeAll_inv {ms : List (String × MonthRecord)}
    {frs : List (String × SummaryRecord)} (h : finalizeAll ms = some frs)
    (hms : ∀ kr ∈ ms, RecInv kr.2) :
    ∀ kr ∈ frs, 0 ≤ kr.2.sum_peak_kWh ∧ kr.2.sum_peak_kWh ≤ kr.2.kWh := by
  induction ms generalizing frs with
  | nil =>
    unfold finalizeAll at h
    cases h
    intro kr hkr
    cases hkr
  | cons hd tl ih =>
    unfold finalizeAll at h
    split at h
    · cases h
    · rename_i fr hfr
      split at h
      · cases h
      · rename_i frs' hfrs'
        cases h
        intro kr hkr
        rcases List.mem_cons.mp hkr with rfl | hmem
        · exact finalizeMonth_inv hfr (hms hd (List.mem_cons_self hd tl))
        · exact ih hfrs' (fun x hx => hms x (List.mem_cons_of_mem hd hx)) kr hmem

/-- C9: with non-negative usage samples, every monthly record satisfies
`0 ≤ sum_peak_kWh ≤ kWh` at every point during the fold (after any prefix of
the input) and in every record of a successful finalization, the `"SUMMARY"`
record included. -/
theorem C9_peak_kwh_invariant (entries : List (DateTime × ℚ)) (H : HolidayCalendar)
    (hnn : ∀ e ∈ entries, 0 ≤ e.2) :
    (∀ pre suf, entries = pre ++ suf →
      ∀ kr ∈ month_sums pre H, 0 ≤ kr.2.sum_peak_kWh ∧ kr.2.sum_peak_kWh ≤ kr.2.kWh) ∧
    (∀ out, many_month_usage_summary_from_hourly_entries entries H = some out →
      ∀ kr ∈ out, 0 ≤ kr.2.sum_peak_kWh ∧ kr.2.sum_peak_kWh ≤ kr.2.kWh) := by
  have hinv : ∀ kr ∈ month_sums entries H, RecInv kr.2 :=
    month_sums_inv H entries [] (by intro kr hkr; cases hkr) hnn
  constructor
  · intro pre suf heq kr hkr
    exact month_sums_inv H pre [] (by intro x hx; cases hx)
      (fun e he => hnn e (heq ▸ List.mem_append_left suf he)) kr hkr
  · intro out hout kr hkr
    unfold many_month_usage_summary_from_hourly_entries at hout
    split at hout
    · cases hout
    · rename_i finals hfin
      split at hout
      · cases hout
      · cases hout
        rcases List.mem_append.mp hkr with hmem | hmem
        · exact finalizeAll_inv hfin hinv kr hmem
        · rcases List.mem_singleton.mp hmem with rfl
          refine ⟨round3_nonneg ?_, round3_mono ?_⟩
          · exact List.sum_nonneg (by
              intro x hx
              obtain ⟨kr', hkr', rfl⟩ := List.mem_map.mp hx
              exact (hinv kr' hkr').1)
          · exact List.sum_le_sum (fun kr' hkr' => (hinv kr' hkr').2)

/-- C9 witness: the invariant instantiated on the month record produced by a
single 2 kWh peak-hour sample (Tuesday 2024-01-02 08:00). -/
theorem C9_peak_kwh_invariant_witness :
    0 ≤ (("2024-01", (⟨2, 0.2184594192, 0.6932579008, 2⟩ : MonthRecord)) :
        String × MonthRecord).2.sum_peak_kWh ∧
    (("2024-01", (⟨2, 0.2184594192, 0.6932579008, 2⟩ : MonthRecord)) :
        String × MonthRecord).2.sum_peak_kWh ≤
      (("2024-01", (⟨2, 0.2184594192, 0.6932579008, 2⟩ : MonthRecord)) :
        String × MonthRecord).2.kWh :=
  (C9_peak_kwh_invariant [(⟨2024, 1, 2, 8, 0, 0, 0⟩, 2)] rmpHolidays
      (by intro e he; rw [List.mem_singleton.mp he]; norm_num)).1
    [(⟨2024, 1, 2, 8, 0, 0, 0⟩, 2)] [] (by simp)
    ("2024-01", ⟨2, 0.2184594192, 0.6932579008, 2⟩)
    (by with_unfolding_all exact List.Mem.head _)

/-- The month map produced by the full-January fold, computed day by day. -/
lemma month_sums_january :
    month_sums januaryEntries rmpHolidays =
      [("2024-01", ⟨744, (577971837 : ℚ)/6250000, (7447639137 : ℚ)/78125000, 154⟩)] := by
  have hJ : januaryEntries = dayEntries 1 ++ (dayEntries 2 ++ (dayEntries 3 ++ (dayEntries 4 ++ (dayEntries 5 ++ (dayEntries 6 ++ (dayEntries 7 ++ (dayEntries 8 ++ (dayEntries 9 ++ (dayEntries 10 ++ (dayEntries 11 ++ (dayEntries 12 ++ (dayEntries 13 ++ (dayEntries 14 ++ (dayEntries 15 ++ (dayEntries 16 ++ (dayEntries 17 ++ (dayEntries 18 ++ (dayEntries 19 ++ (dayEntries 20 ++ (dayEntries 21 ++ (dayEntries 22 ++ (dayEntries 23 ++ (dayEntries 24 ++ (dayEntries 25 ++ (dayEntries 26 ++ (dayEntries 27 ++ (dayEntries 28 ++ (dayEntries 29 ++ (dayEntries 30 ++ (dayEntries 31)))))))))))))))))))))))))))))) := by
    with_unfolding_all rfl
  have s1 : List.foldl (foldSample rmpHolidays) ([] : List (String × MonthRecord)) (dayEntries 1) =
      [("2024-01", ⟨24, (409611411 : ℚ)/156250000, (66656127 : ℚ)/39062500, 0⟩)] := by
    with_unfolding_all rfl
  have s2 : List.foldl (foldSample rmpHolidays) [("2024-01", ⟨24, (409611411 : ℚ)/156250000, (66656127 : ℚ)/39062500, 0⟩)] (dayEntries 2) =
      [("2024-01", ⟨48, (409611411 : ℚ)/78125000, (834608949 : ℚ)/156250000, 7⟩)] := by
    with_unfolding_all rfl
  have s3 : List.foldl (foldSample rmpHolidays) [("2024-01", ⟨48, (409611411 : ℚ)/78125000, (834608949 : ℚ)/156250000, 7⟩)] (dayEntries 3) =
      [("2024-01", ⟨72, (1228834233 : ℚ)/156250000, (140259339 : ℚ)/15625000, 14⟩)] := by
    with_unfolding_all rfl
  have s4 : List.foldl (foldSample rmpHolidays) [("2024-01", ⟨72, (1228834233 : ℚ)/156250000, (140259339 : ℚ)/15625000, 14⟩)] (dayEntries 4) =
      [("2024-01", ⟨96, (409611411 : ℚ)/39062500, (1970577831 : ℚ)/156250000, 21⟩)] := by
    with_unfolding_all rfl
  have s5 : List.foldl (foldSample rmpHolidays) [("2024-01", ⟨96, (409611411 : ℚ)/39062500, (1970577831 : ℚ)/156250000, 21⟩)] (dayEntries 5) =
      [("2024-01", ⟨120, (409611411 : ℚ)/31250000, (158660142 : ℚ)/9765625, 28⟩)] := by
    with_unfolding_all rfl
  have s6 : List.foldl (foldSample rmpHolidays) [("2024-01", ⟨120, (409611411 : ℚ)/31250000, (158660142 : ℚ)/9765625, 28⟩)] (dayEntries 6) =
      [("2024-01", ⟨144, (1228834233 : ℚ)/78125000, (140259339 : ℚ)/7812500, 28⟩)] := by
    with_unfolding_all rfl
  have s7 : List.foldl (foldSample rmpHolidays) [("2024-01", ⟨144, (1228834233 : ℚ)/78125000, (140259339 : ℚ)/7812500, 28⟩)] (dayEntries 7) =
      [("2024-01", ⟨168, (2867279877 : ℚ)/156250000, (383976411 : ℚ)/19531250, 28⟩)] := by
    with_unfolding_all rfl
  have s8 : List.foldl (foldSample rmpHolidays) [("2024-01", ⟨168, (2867279877 : ℚ)/156250000, (383976411 : ℚ)/19531250, 28⟩)] (dayEntries 8) =
      [("2024-01", ⟨192, (409611411 : ℚ)/19531250, (3639795729 : ℚ)/156250000, 35⟩)] := by
    with_unfolding_all rfl
  have s9 : List.foldl (foldSample rmpHolidays) [("2024-01", ⟨192, (409611411 : ℚ)/19531250, (3639795729 : ℚ)/156250000, 35⟩)] (dayEntries 9) =
      [("2024-01", ⟨216, (3686502699 : ℚ)/156250000, (420778017 : ℚ)/15625000, 42⟩)] := by
    with_unfolding_all rfl
  have s10 : List.foldl (foldSample rmpHolidays) [("2024-01", ⟨216, (3686502699 : ℚ)/156250000, (420778017 : ℚ)/15625000, 42⟩)] (dayEntries 10) =
      [("2024-01", ⟨240, (409611411 : ℚ)/15625000, (4775764611 : ℚ)/156250000, 49⟩)] := by
    with_unfolding_all rfl
  have s11 : List.foldl (foldSample rmpHolidays) [("2024-01", ⟨240, (409611411 : ℚ)/15625000, (4775764611 : ℚ)/156250000, 49⟩)] (dayEntries 11) =
      [("2024-01", ⟨264, (4505725521 : ℚ)/156250000, (1335937263 : ℚ)/39062500, 56⟩)] := by
    with_unfolding_all rfl
  have s12 : List.foldl (foldSample rmpHolidays) [("2024-01", ⟨264, (4505725521 : ℚ)/156250000, (1335937263 : ℚ)/39062500, 56⟩)] (dayEntries 12) =
      [("2024-01", ⟨288, (1228834233 : ℚ)/39062500, (5911733493 : ℚ)/156250000, 63⟩)] := by
    with_unfolding_all rfl
  have s13 : List.foldl (foldSample rmpHolidays) [("2024-01", ⟨288, (1228834233 : ℚ)/39062500, (5911733493 : ℚ)/156250000, 63⟩)] (dayEntries 13) =
      [("2024-01", ⟨312, (5324948343 : ℚ)/156250000, (6178358001 : ℚ)/156250000, 63⟩)] := by
    with_unfolding_all rfl
  have s14 : List.foldl (foldSample rmpHolidays) [("2024-01", ⟨312, (5324948343 : ℚ)/156250000, (6178358001 : ℚ)/156250000, 63⟩)] (dayEntries 14) =
      [("2024-01", ⟨336, (2867279877 : ℚ)/78125000, (6444982509 : ℚ)/156250000, 63⟩)] := by
    with_unfolding_all rfl
  have s15 : List.foldl (foldSample rmpHolidays) [("2024-01", ⟨336, (2867279877 : ℚ)/78125000, (6444982509 : ℚ)/156250000, 63⟩)] (dayEntries 15) =
      [("2024-01", ⟨360, (1228834233 : ℚ)/31250000, (140259339 : ℚ)/3125000, 70⟩)] := by
    with_unfolding_all rfl
  have s16 : List.foldl (foldSample rmpHolidays) [("2024-01", ⟨360, (1228834233 : ℚ)/31250000, (140259339 : ℚ)/3125000, 70⟩)] (dayEntries 16) =
      [("2024-01", ⟨384, (409611411 : ℚ)/9765625, (7580951391 : ℚ)/156250000, 77⟩)] := by
    with_unfolding_all rfl
  have s17 : List.foldl (foldSample rmpHolidays) [("2024-01", ⟨384, (409611411 : ℚ)/9765625, (7580951391 : ℚ)/156250000, 77⟩)] (dayEntries 17) =
      [("2024-01", ⟨408, (56032983 : ℚ)/1250000, (1018616979 : ℚ)/19531250, 84⟩)] := by
    with_unfolding_all rfl
  have s18 : List.foldl (foldSample rmpHolidays) [("2024-01", ⟨408, (56032983 : ℚ)/1250000, (1018616979 : ℚ)/19531250, 84⟩)] (dayEntries 18) =
      [("2024-01", ⟨432, (150718419 : ℚ)/3125000, (8716920273 : ℚ)/156250000, 91⟩)] := by
    with_unfolding_all rfl
  have s19 : List.foldl (foldSample rmpHolidays) [("2024-01", ⟨432, (150718419 : ℚ)/3125000, (8716920273 : ℚ)/156250000, 91⟩)] (dayEntries 19) =
      [("2024-01", ⟨456, (322708761 : ℚ)/6250000, (4642452357 : ℚ)/78125000, 98⟩)] := by
    with_unfolding_all rfl
  have s20 : List.foldl (foldSample rmpHolidays) [("2024-01", ⟨456, (322708761 : ℚ)/6250000, (4642452357 : ℚ)/78125000, 98⟩)] (dayEntries 20) =
      [("2024-01", ⟨480, (85995171 : ℚ)/1562500, (4775764611 : ℚ)/78125000, 98⟩)] := by
    with_unfolding_all rfl
  have s21 : List.foldl (foldSample rmpHolidays) [("2024-01", ⟨480, (85995171 : ℚ)/1562500, (4775764611 : ℚ)/78125000, 98⟩)] (dayEntries 21) =
      [("2024-01", ⟨504, (365252607 : ℚ)/6250000, (981815373 : ℚ)/15625000, 98⟩)] := by
    with_unfolding_all rfl
  have s22 : List.foldl (foldSample rmpHolidays) [("2024-01", ⟨504, (365252607 : ℚ)/6250000, (981815373 : ℚ)/15625000, 98⟩)] (dayEntries 22) =
      [("2024-01", ⟨528, (38652453 : ℚ)/625000, (10386138171 : ℚ)/156250000, 105⟩)] := by
    with_unfolding_all rfl
  have s23 : List.foldl (foldSample rmpHolidays) [("2024-01", ⟨528, (38652453 : ℚ)/625000, (10386138171 : ℚ)/156250000, 105⟩)] (dayEntries 23) =
      [("2024-01", ⟨552, (407796453 : ℚ)/6250000, (2738530653 : ℚ)/39062500, 112⟩)] := by
    with_unfolding_all rfl
  have s24 : List.foldl (foldSample rmpHolidays) [("2024-01", ⟨552, (407796453 : ℚ)/6250000, (2738530653 : ℚ)/39062500, 112⟩)] (dayEntries 24) =
      [("2024-01", ⟨576, (53633547 : ℚ)/781250, (11522107053 : ℚ)/156250000, 119⟩)] := by
    with_unfolding_all rfl
  have s25 : List.foldl (foldSample rmpHolidays) [("2024-01", ⟨576, (53633547 : ℚ)/781250, (11522107053 : ℚ)/156250000, 119⟩)] (dayEntries 25) =
      [("2024-01", ⟨600, (450340299 : ℚ)/6250000, (6045045747 : ℚ)/78125000, 126⟩)] := by
    with_unfolding_all rfl
  have s26 : List.foldl (foldSample rmpHolidays) [("2024-01", ⟨600, (450340299 : ℚ)/6250000, (6045045747 : ℚ)/78125000, 126⟩)] (dayEntries 26) =
      [("2024-01", ⟨624, (235806111 : ℚ)/3125000, (2531615187 : ℚ)/31250000, 133⟩)] := by
    with_unfolding_all rfl
  have s27 : List.foldl (foldSample rmpHolidays) [("2024-01", ⟨624, (235806111 : ℚ)/3125000, (2531615187 : ℚ)/31250000, 133⟩)] (dayEntries 27) =
      [("2024-01", ⟨648, (98576829 : ℚ)/1250000, (12924700443 : ℚ)/156250000, 133⟩)] := by
    with_unfolding_all rfl
  have s28 : List.foldl (foldSample rmpHolidays) [("2024-01", ⟨648, (98576829 : ℚ)/1250000, (12924700443 : ℚ)/156250000, 133⟩)] (dayEntries 28) =
      [("2024-01", ⟨672, (128539017 : ℚ)/1562500, (13191324951 : ℚ)/156250000, 133⟩)] := by
    with_unfolding_all rfl
  have s29 : List.foldl (foldSample rmpHolidays) [("2024-01", ⟨672, (128539017 : ℚ)/1562500, (13191324951 : ℚ)/156250000, 133⟩)] (dayEntries 29) =
      [("2024-01", ⟨696, (535427991 : ℚ)/6250000, (859956837 : ℚ)/9765625, 140⟩)] := by
    with_unfolding_all rfl
  have s30 : List.foldl (foldSample rmpHolidays) [("2024-01", ⟨696, (535427991 : ℚ)/6250000, (859956837 : ℚ)/9765625, 140⟩)] (dayEntries 30) =
      [("2024-01", ⟨720, (278349957 : ℚ)/3125000, (14327293833 : ℚ)/156250000, 147⟩)] := by
    with_unfolding_all rfl
  have s31 : List.foldl (foldSample rmpHolidays) [("2024-01", ⟨720, (278349957 : ℚ)/3125000, (14327293833 : ℚ)/156250000, 147⟩)] (dayEntries 31) =
      [("2024-01", ⟨744, (577971837 : ℚ)/6250000, (7447639137 : ℚ)/78125000, 154⟩)] := by
    with_unfolding_all rfl
  unfold month_sums
  rw [hJ, List.foldl_append, s1, List.foldl_append, s2, List.foldl_append, s3, List.foldl_append, s4, List.foldl_append, s5, List.foldl_append, s6, List.foldl_append, s7, List.foldl_append, s8, List.foldl_append, s9, List.foldl_append, s10, List.foldl_append, s11, List.foldl_append, s12, List.foldl_append, s13, List.foldl_append, s14, List.foldl_append, s15, List.foldl_append, s16, List.foldl_append, s17, List.foldl_append, s18, List.foldl_append, s19, List.foldl_append, s20, List.foldl_append, s21, List.foldl_append, s22, List.foldl_append, s23, List.foldl_append, s24, List.foldl_append, s25, List.foldl_append, s26, List.foldl_append, s27, List.foldl_append, s28, List.foldl_append, s29, List.foldl_append, s30]
  exact s31

/-- C3: feeding every hour of January 2024 at 1 kWh each, the aggregator
output holds exactly the key "2024-01" and "SUMMARY"; the month record has
744 kWh with block cost equal to the winter low/high split at the 400 kWh
boundary, and the SUMMARY record equals the month record field for field. -/
theorem C3_single_month_roundtrip :
    ∃ mrec : SummaryRecord,
      many_month_usage_summary_from_hourly_entries januaryEntries rmpHolidays =
        some [("2024-01", mrec), ("SUMMARY", mrec)] ∧
      mrec.kWh = 744 ∧
      mrec.block_cost = round3 (400 * 0.1092297096 + 344 * 0.14181282) := by
  refine ⟨⟨744, (3699 : ℚ)/40, (9533 : ℚ)/100, 154, (-1427 : ℚ)/500, (79301 : ℚ)/1000⟩,
    ?_, ?_, ?_⟩
  · unfold many_month_usage_summary_from_hourly_entries
    rw [month_sums_january]
    with_unfolding_all rfl
  · rfl
  · with_unfolding_all rfl


/-- C4 (code bug): at a timestamp that is the last hour of a peak period and
exactly hour-aligned — Wednesday 2024-07-10 19:00:00, peak, with 20:00
off-peak — `find_next_peak_change` does not return the claimed 1-hour
duration: the hour-aligned branch leaves `iter_datetime` unassigned and the
function crashes with `UnboundLocalError` (modelled by `none`). -/
theorem C4_hour_aligned_crash :
    is_peak_hour ⟨2024, 7, 10, 19, 0, 0, 0⟩ rmpHolidays = true ∧
    is_peak_hour (addOneHour ⟨2024, 7, 10, 19, 0, 0, 0⟩) rmpHolidays = false ∧
    find_next_peak_change ⟨2024, 7, 10, 19, 0, 0, 0⟩ rmpHolidays = none := by
  refine ⟨by decide, by decide, ?_⟩
  unfold find_next_peak_change
  simp

lemma isLeap_iff (y : Nat) :
    isLeap y = true ↔ (y % 4 = 0 ∧ (y % 100 ≠ 0 ∨ y % 400 = 0)) := by
  simp [isLeap, Bool.and_eq_true, Bool.or_eq_true]

lemma dayCount_nextDate (y m d : Nat) (hy : 1 ≤ y) (hm1 : 1 ≤ m) (hm2 : m ≤ 12)
    (hd1 : 1 ≤ d) (hd2 : d ≤ daysInMonth y m) :
    dayCount (nextDate y m d).1 (nextDate y m d).2.1 (nextDate y m d).2.2 =
      dayCount y m d + 1 := by
  rcases Nat.lt_or_ge d (daysInMonth y m) with hlt | hge
  · have hnd : nextDate y m d = (y, m, d + 1) := by
      unfold nextDate; rw [if_pos hlt]
    rw [hnd]
    show dayCount y m (d + 1) = dayCount y m d + 1
    simp only [dayCount]
    split_ifs <;> omega
  · have hde : d = daysInMonth y m := le_antisymm hd2 hge
    by_cases hm12 : m < 12
    · have hnd : nextDate y m d = (y, m + 1, 1) := by
        unfold nextDate; rw [if_neg (by omega), if_pos hm12]
    
      rw [hnd]
      show dayCount y (m + 1) 1 = dayCount y m d + 1
      subst hde
      interval_cases m
      · rw [show daysInMonth y 1 = 31 from rfl]
        simp only [dayCount]; split_ifs <;> omega
      · rcases Bool.eq_false_or_eq_true (isLeap y) with hl | hl
        · have hle := (isLeap_iff y).mp hl
          rw [show daysInMonth y 2 = if isLeap y then 29 else 28 from rfl, hl]
          rw [show (if (true : Bool) then 29 else 28) = 29 from rfl]
          simp only [dayCount]; split_ifs <;> omega
        · have hnl : ¬(y % 4 = 0 ∧ (y % 100 ≠ 0 ∨ y % 400 = 0)) := fun hc => by
            rw [(isLeap_iff y).mpr hc] at hl
            cases hl
          rw [show daysInMonth y 2 = if isLeap y then 29 else 28 from rfl, hl]
          rw [show (if (false : Bool) then 29 else 28) = 28 from rfl]
          simp only [dayCount]; split_ifs <;> omega
      · rw [show daysInMonth y 3 = 31 from rfl]
        simp only [dayCount]; split_ifs <;> omega
      · rw [show daysInMonth y 4 = 30 from rfl]
        simp only [dayCount]; split_ifs <;> omega
      · rw [show daysInMonth y 5 = 31 from rfl]
        simp only [dayCount]; split_ifs <;> omega
      · rw [show daysInMonth y 6 = 30 from rfl]
        simp only [dayCount]; split_ifs <;> omega
      · rw [show daysInMonth y 7 = 31 from rfl]
        simp only [dayCount]; split_ifs <;> omega
      · rw [show daysInMonth y 8 = 31 from rfl]
        simp only [dayCount]; split_ifs <;> omega
      · rw [show daysInMonth y 9 = 30 from rfl]
        simp only [dayCount]; split_ifs <;> omega
      · rw [show daysInMonth y 10 = 31 from rfl]
        simp only [dayCount]; split_ifs <;> omega
      · rw [show daysInMonth y 11 = 30 from rfl]
        simp only [dayCount]; split_ifs <;> omega
    · have hm' : m = 12 := by omega
      subst hm'
      have hnd : nextDate y 12 d = (y + 1, 1, 1) := by
        unfold nextDate; rw [if_neg (by omega), if_neg (by omega)]
      rw [hnd]
      show dayCount (y + 1) 1 1 = dayCount y 12 d + 1
      have hd31 : d = 31 := hde.trans rfl
      subst hd31
      simp only [dayCount]
      split_ifs <;> omega

lemma daysInMonth_pos {y m : Nat} (h1 : 1 ≤ m) (h2 : m ≤ 12) :
    1 ≤ daysInMonth y m := by
  interval_cases m <;> (norm_num [daysInMonth]) <;> split_ifs <;> omega

lemma nextDate_valid (p : Nat × Nat × Nat) (hp : ValidDate p) :
    ValidDate (nextDate p.1 p.2.1 p.2.2) := by
  obtain ⟨y, m, d⟩ := p
  obtain ⟨hy, hm1, hm2, hd1, hd2⟩ := hp
  replace hy : 1 ≤ y := hy
  replace hm1 : 1 ≤ m := hm1
  replace hm2 : m ≤ 12 := hm2
  replace hd1 : 1 ≤ d := hd1
  replace hd2 : d ≤ daysInMonth y m := hd2
  show ValidDate (nextDate y m d)
  unfold nextDate
  split_ifs with h1 h2
  · show 1 ≤ y ∧ 1 ≤ m ∧ m ≤ 12 ∧ 1 ≤ d + 1 ∧ d + 1 ≤ daysInMonth y m
    exact ⟨hy, hm1, hm2, by omega, by omega⟩
  · show 1 ≤ y ∧ 1 ≤ m + 1 ∧ m + 1 ≤ 12 ∧ 1 ≤ 1 ∧ 1 ≤ daysInMonth y (m + 1)
    exact ⟨hy, by omega, by omega, le_rfl, daysInMonth_pos (by omega) (by omega)⟩
  · show 1 ≤ y + 1 ∧ 1 ≤ 1 ∧ (1 : Nat) ≤ 12 ∧ 1 ≤ 1 ∧ 1 ≤ daysInMonth (y + 1) 1
    exact ⟨by omega, le_rfl, by norm_num, le_rfl, daysInMonth_pos le_rfl (by norm_num)⟩

lemma nextDateIter_valid {p : Nat × Nat × Nat} (hp : ValidDate p) (k : Nat) :
    ValidDate (nextDateIter k p) := by
  induction k generalizing p with
  | zero => exact hp
  | succ k ih => exact ih (nextDate_valid _ hp)

lemma dayCount_nextDateIter {p : Nat × Nat × Nat} (hp : ValidDate p) (k : Nat) :
    dayCount (nextDateIter k p).1 (nextDateIter k p).2.1 (nextDateIter k p).2.2 =
      dayCount p.1 p.2.1 p.2.2 + k := by
  induction k generalizing p with
  | zero => simp [nextDateIter]
  | succ k ih =>
    have step := dayCount_nextDate p.1 p.2.1 p.2.2 hp.1 hp.2.1 hp.2.2.1 hp.2.2.2.1 hp.2.2.2.2
    have hrec : nextDateIter (k + 1) p = nextDateIter k (nextDate p.1 p.2.1 p.2.2) := by
      simp [nextDateIter]
    rw [hrec, ih (nextDate_valid _ hp), step]
    omega

lemma nextDateIter_succ_right (k : Nat) (p : Nat × Nat × Nat) :
    nextDateIter (k + 1) p =
      nextDate (nextDateIter k p).1 (nextDateIter k p).2.1 (nextDateIter k p).2.2 := by
  induction k generalizing p with
  | zero => rfl
  | succ k ih =>
    show nextDateIter (k + 1) (nextDate p.1 p.2.1 p.2.2) = _
    rw [ih (nextDate p.1 p.2.1 p.2.2)]
    rfl

/-- Within 28 steps, `nextDate` crosses at most one year boundary: the year
either stays, or has just rolled over into January. -/
lemma nextDateIter_year_bound {p : Nat × Nat × Nat} (hp : ValidDate p) :
    ∀ j, j ≤ 28 → ∃ y m d, nextDateIter j p = (y, m, d) ∧
      (y = p.1 ∨ (y = p.1 + 1 ∧ m = 1 ∧ d ≤ j)) := by
  intro j
  induction j with
  | zero => exact fun _ => ⟨p.1, p.2.1, p.2.2, rfl, Or.inl rfl⟩
  | succ j ih =>
    intro hj
    obtain ⟨y, m, d, hq, hcase⟩ := ih (by omega)
    have hval : ValidDate (y, m, d) := hq ▸ nextDateIter_valid hp j
    replace hval : 1 ≤ y ∧ 1 ≤ m ∧ m ≤ 12 ∧ 1 ≤ d ∧ d ≤ daysInMonth y m := hval
    have hstep : nextDateIter (j + 1) p = nextDate y m d := by
      rw [nextDateIter_succ_right, hq]
    rcases hcase with hy | ⟨hy, hm, hd⟩
    · by_cases h1 : d < daysInMonth y m
      · exact ⟨y, m, d + 1, by rw [hstep]; unfold nextDate; rw [if_pos h1], Or.inl hy⟩
      · by_cases h2 : m < 12
        · refine ⟨y, m + 1, 1, ?_, Or.inl hy⟩
          rw [hstep]; unfold nextDate; rw [if_neg h1, if_pos h2]
        · refine ⟨y + 1, 1, 1, ?_, Or.inr ⟨by omega, rfl, by omega⟩⟩
          rw [hstep]; unfold nextDate; rw [if_neg h1, if_neg h2]
    · subst hm
      have h1 : d < daysInMonth y 1 := by
        rw [show daysInMonth y 1 = 31 from rfl]
        omega
      refine ⟨y, 1, d + 1, ?_, Or.inr ⟨hy, rfl, by omega⟩⟩
      rw [hstep]; unfold nextDate; rw [if_pos h1]

lemma addOneHour_iterate (y m d h : Nat) (hh : h < 24) (k : Nat) :
    addOneHour^[k] ⟨y, m, d, h, 0, 0, 0⟩ =
      ⟨(nextDateIter ((h + k) / 24) (y, m, d)).1,
       (nextDateIter ((h + k) / 24) (y, m, d)).2.1,
       (nextDateIter ((h + k) / 24) (y, m, d)).2.2, (h + k) % 24, 0, 0, 0⟩ := by
  induction k with
  | zero =>
    rw [Function.iterate_zero_apply]
    rw [show (h + 0) / 24 = 0 from by omega, show (h + 0) % 24 = h from by omega]
    rfl
  | succ k ih =>
    rw [Function.iterate_succ_apply', ih]
    have hm24 : (h + k) % 24 < 24 := Nat.mod_lt _ (by norm_num)
    by_cases hlt : (h + k) % 24 + 1 < 24
    · have e1 : (h + (k + 1)) / 24 = (h + k) / 24 := by omega
      have e2 : (h + (k + 1)) % 24 = (h + k) % 24 + 1 := by omega
      rw [e1, e2]
      unfold addOneHour
      rw [if_pos hlt]
    · have h23 : (h + k) % 24 = 23 := by omega
      have e1 : (h + (k + 1)) / 24 = (h + k) / 24 + 1 := by omega
      have e2 : (h + (k + 1)) % 24 = 0 := by omega
      rw [e1, e2]
      unfold addOneHour
      rw [if_neg hlt, nextDateIter_succ_right]

lemma addOneHour_valid {t : DateTime} (hv : t.Valid) : (addOneHour t).Valid := by
  obtain ⟨y, m, d, h, mi, s, us⟩ := t
  simp only [DateTime.Valid] at hv
  obtain ⟨h1, h2, h3, h4, h5, h6, h7, h8, h9⟩ := hv
  unfold addOneHour
  by_cases hlt : h + 1 < 24
  · rw [if_pos hlt]
    exact ⟨h1, h2, h3, h4, h5, hlt, h7, h8, h9⟩
  · rw [if_neg hlt]
    have hnd : ValidDate (nextDate y m d) := nextDate_valid (y, m, d) ⟨h1, h2, h3, h4, h5⟩
    exact ⟨hnd.1, hnd.2.1, hnd.2.2.1, hnd.2.2.2.1, hnd.2.2.2.2,
      by norm_num, h7, h8, h9⟩

lemma toMicroseconds_addOneHour {t : DateTime} (hv : t.Valid) :
    toMicroseconds (addOneHour t) = toMicroseconds t + 3600000000 := by
  obtain ⟨y, m, d, h, mi, s, us⟩ := t
  simp only [DateTime.Valid] at hv
  obtain ⟨h1, h2, h3, h4, h5, h6, h7, h8, h9⟩ := hv
  unfold addOneHour
  by_cases hlt : h + 1 < 24
  · rw [if_pos hlt]
    unfold toMicroseconds
    push_cast
    ring
  · rw [if_neg hlt]
    have h23 : h = 23 := by omega
    subst h23
    have hstep := dayCount_nextDate y m d h1 h2 h3 h4 h5
    unfold toMicroseconds
    rw [hstep]
    push_cast
    ring

/-- Hour 21 is never in any peak-hour set. -/
lemma is_peak_hour_hour21 (t : DateTime) (H : HolidayCalendar) (h : t.hour = 21) :
    is_peak_hour t H = false := by
  simp only [is_peak_hour, h]
  rcases Bool.eq_false_or_eq_true (([5, 6, 7, 8, 9] : List Nat).contains t.month)
    with hc | hc <;> rw [hc] <;> simp

/-- Hour 15 of a non-holiday weekday is peak in every month. -/
lemma is_peak_hour_at15 (t : DateTime) (H : HolidayCalendar) (hw : t.weekday < 5)
    (hh : H (t.year, t.month, t.day) = false) (h15 : t.hour = 15) :
    is_peak_hour t H = true := by
  simp only [is_peak_hour, h15, hh]
  rcases Bool.eq_false_or_eq_true (([5, 6, 7, 8, 9] : List Nat).contains t.month)
    with hc | hc <;> rw [hc] <;> simp [hw]

/-- Among any 28 consecutive steps, at least 20 land on residues 0–4 mod 7
(weekdays). -/
lemma weekday_window_count (a : Nat) :
    20 ≤ ((Finset.Icc 1 28).filter (fun j => (a + j) % 7 < 5)).card := by
  have h7 : a % 7 < 7 := Nat.mod_lt _ (by norm_num)
  obtain ⟨r, hr⟩ : ∃ r, a % 7 = r := ⟨_, rfl⟩
  have hcong : ∀ j ∈ Finset.Icc 1 28, ((a + j) % 7 < 5) ↔ ((r + j) % 7 < 5) := by
    intro j _
    omega
  rw [Finset.filter_congr hcong]
  rw [hr] at h7
  interval_cases r <;> decide

lemma windowHolidayPool_card (y : Nat) : (windowHolidayPool y).card ≤ 18 := by
  refine le_trans (List.toFinset_card_le _) ?_
  simp [holidayDates]

lemma rmpHolidays_mem_pool {p : Nat × Nat × Nat} (hp : ValidDate p) {j : Nat}
    (hj2 : j ≤ 28) (hhol : rmpHolidays (nextDateIter j p) = true) :
    nextDateIter j p ∈ windowHolidayPool p.1 := by
  obtain ⟨y, m, d, hq, hcase⟩ := nextDateIter_year_bound hp j hj2
  rw [hq] at hhol ⊢
  unfold rmpHolidays at hhol
  rw [Bool.or_eq_true] at hhol
  unfold windowHolidayPool
  rw [List.mem_toFinset, List.mem_append, List.mem_append]
  rcases hhol with hc | hb
  · rcases hcase with hy | ⟨hy, hm1, hd1⟩ <;> subst hy
    · have hmem : (p.1, m, d) ∈ holidayDates p.1 := List.elem_iff.mp hc
      exact Or.inl (Or.inl hmem)
    · have hmem : (p.1 + 1, m, d) ∈ holidayDates (p.1 + 1) := List.elem_iff.mp hc
      exact Or.inl (Or.inr hmem)
  · rcases hcase with hy | ⟨hy, hm1, hd1⟩ <;> subst hy
    · have hbe : observedShift (p.1 + 1) 1 1 = (p.1, m, d) := eq_of_beq hb
      refine Or.inr ?_
      rw [← hbe]
      simp
    · have hbe : observedShift (p.1 + 1 + 1) 1 1 = (p.1 + 1, m, d) := eq_of_beq hb
      refine Or.inr ?_
      rw [show p.1 + 2 = p.1 + 1 + 1 from rfl, ← hbe]
      simp

/-- In the 28 days after any date there is a non-holiday weekday: the window
has at least 20 weekdays while at most 18 dates can be holidays. -/
lemma exists_peak_weekday {p : Nat × Nat × Nat} (hp : ValidDate p) :
    ∃ j, 1 ≤ j ∧ j ≤ 28 ∧
      weekdayYMD (nextDateIter j p).1 (nextDateIter j p).2.1 (nextDateIter j p).2.2 < 5 ∧
      rmpHolidays (nextDateIter j p) = false := by
  by_contra hcon
  push_neg at hcon
  have hWH : (Finset.Icc 1 28).filter (fun j =>
        weekdayYMD (nextDateIter j p).1 (nextDateIter j p).2.1 (nextDateIter j p).2.2 < 5) ⊆
      (Finset.Icc 1 28).filter (fun j => rmpHolidays (nextDateIter j p) = true) := by
    intro j hj
    rw [Finset.mem_filter, Finset.mem_Icc] at hj ⊢
    refine ⟨⟨hj.1.1, hj.1.2⟩, ?_⟩
    have := hcon j hj.1.1 hj.1.2 hj.2
    exact Bool.ne_false_iff.mp this
  have hW20 : 20 ≤ ((Finset.Icc 1 28).filter (fun j =>
      weekdayYMD (nextDateIter j p).1 (nextDateIter j p).2.1 (nextDateIter j p).2.2 < 5)).card := by
    have hcong : ∀ j ∈ Finset.Icc 1 28,
        (weekdayYMD (nextDateIter j p).1 (nextDateIter j p).2.1 (nextDateIter j p).2.2 < 5) ↔
          (((dayCount p.1 p.2.1 p.2.2 + 2) + j) % 7 < 5) := by
      intro j _
      unfold weekdayYMD
      rw [dayCount_nextDateIter hp j]
      constructor <;> intro <;> omega
    rw [Finset.filter_congr hcong]
    exact weekday_window_count _
  have hH18 : ((Finset.Icc 1 28).filter (fun j =>
      rmpHolidays (nextDateIter j p) = true)).card ≤ 18 := by
    have hinj : Set.InjOn (fun j => nextDateIter j p)
        ((Finset.Icc 1 28).filter (fun j => rmpHolidays (nextDateIter j p) = true) :
          Finset Nat) := by
      intro j1 _ j2 _ heq
      have e1 := dayCount_nextDateIter hp j1
      have e2 := dayCount_nextDateIter hp j2
      have e3 : dayCount (nextDateIter j1 p).1 (nextDateIter j1 p).2.1
            (nextDateIter j1 p).2.2 =
          dayCount (nextDateIter j2 p).1 (nextDateIter j2 p).2.1 (nextDateIter j2 p).2.2 := by
        show dayCount ((fun j => nextDateIter j p) j1).1 ((fun j => nextDateIter j p) j1).2.1
            ((fun j => nextDateIter j p) j1).2.2 = _
        rw [heq]
      omega
    calc ((Finset.Icc 1 28).filter (fun j => rmpHolidays (nextDateIter j p) = true)).card
        = (((Finset.Icc 1 28).filter (fun j => rmpHolidays (nextDateIter j p) = true)).image
            (fun j => nextDateIter j p)).card := (Finset.card_image_of_injOn hinj).symm
      _ ≤ (windowHolidayPool p.1).card := by
          refine Finset.card_le_card ?_
          intro q hq
          obtain ⟨j, hj, rfl⟩ := Finset.mem_image.mp hq
          rw [Finset.mem_filter, Finset.mem_Icc] at hj
          exact rmpHolidays_mem_pool hp hj.1.2 hj.2
      _ ≤ 18 := windowHolidayPool_card p.1
  have := Finset.card_le_card hWH
  omega

/-- If some hourly iterate flips the peak status within the fuel budget, the
search loop returns the first flipping iterate. -/
lemma findNextPeakChangeAux_of_flip (H : HolidayCalendar) (b : Bool) :
    ∀ (fuel : Nat) (x : DateTime),
      (∃ k, k < fuel ∧ is_peak_hour (addOneHour^[k] x) H ≠ b) →
      ∃ k, k < fuel ∧ findNextPeakChangeAux H b fuel x = some (addOneHour^[k] x) ∧
        is_peak_hour (addOneHour^[k] x) H ≠ b := by
  intro fuel
  induction fuel with
  | zero =>
    rintro x ⟨k, hk, _⟩
    omega
  | succ fuel ih =>
    rintro x ⟨k, hk, hflip⟩
    by_cases h0 : is_peak_hour x H = b
    · have hk0 : k ≠ 0 := by
        rintro rfl
        rw [Function.iterate_zero_apply] at hflip
        exact hflip h0
      obtain ⟨k', rfl⟩ : ∃ k', k = k' + 1 := ⟨k - 1, by omega⟩
      rw [Function.iterate_succ_apply] at hflip
      obtain ⟨k'', hk'', heq, hflip'⟩ := ih (addOneHour x) ⟨k', by omega, hflip⟩
      refine ⟨k'' + 1, by omega, ?_, ?_⟩
      · unfold findNextPeakChangeAux
        rw [if_pos h0, heq, Function.iterate_succ_apply]
      · rw [Function.iterate_succ_apply]
        exact hflip'
    · refine ⟨0, by omega, ?_, ?_⟩
      · unfold findNextPeakChangeAux
        rw [if_neg h0, Function.iterate_zero_apply]
      · rw [Function.iterate_zero_apply]
        exact h0

/-- Hourly iterates stay valid and advance time by exactly one hour each. -/
lemma addOneHour_iterate_micro {t : DateTime} (hv : t.Valid) (k : Nat) :
    (addOneHour^[k] t).Valid ∧
      toMicroseconds (addOneHour^[k] t) = toMicroseconds t + k * 3600000000 := by
  induction k with
  | zero => simpa using hv
  | succ k ih =>
    rw [Function.iterate_succ_apply']
    refine ⟨addOneHour_valid ih.1, ?_⟩
    rw [toMicroseconds_addOneHour ih.1, ih.2]
    push_cast
    ring

/-- C10: for every valid timestamp that is not hour-aligned,
`find_next_peak_change` terminates: stepping hourly from the next hour
boundary reaches an hour of different peak status within the fuel budget,
and the function returns a positive duration. -/
theorem C10_find_next_peak_change_terminates (t : DateTime) (hv : t.Valid)
    (hna : t.minute ≠ 0 ∨ t.second ≠ 0 ∨ t.microsecond ≠ 0) :
    ∃ dur : ℤ, find_next_peak_change t rmpHolidays = some dur ∧ 0 < dur := by
  obtain ⟨y, m, d, h, mi, s, us⟩ := t
  simp only [DateTime.Valid] at hv
  obtain ⟨h1, h2, h3, h4, h5, h6, h7, h8, h9⟩ := hv
  have hvt0 : (⟨y, m, d, h, 0, 0, 0⟩ : DateTime).Valid :=
    ⟨h1, h2, h3, h4, h5, h6, by norm_num, by norm_num, by norm_num⟩
  obtain ⟨Y, M, D, H0, hx0e⟩ :
      ∃ Y M D H0, addOneHour ⟨y, m, d, h, 0, 0, 0⟩ = (⟨Y, M, D, H0, 0, 0, 0⟩ : DateTime) := by
    unfold addOneHour
    by_cases hlt : h + 1 < 24
    · rw [if_pos hlt]
      exact ⟨y, m, d, h + 1, rfl⟩
    · rw [if_neg hlt]
      exact ⟨_, _, _, 0, rfl⟩
  have hvx0 : (⟨Y, M, D, H0, 0, 0, 0⟩ : DateTime).Valid := hx0e ▸ addOneHour_valid hvt0
  obtain ⟨g1, g2, g3, g4, g5, g6, _, _, _⟩ := hvx0
  replace g1 : 1 ≤ Y := g1
  replace g2 : 1 ≤ M := g2
  replace g3 : M ≤ 12 := g3
  replace g4 : 1 ≤ D := g4
  replace g5 : D ≤ daysInMonth Y M := g5
  replace g6 : H0 < 24 := g6
  have hVD : ValidDate (Y, M, D) := ⟨g1, g2, g3, g4, g5⟩
  have hvx0' : (⟨Y, M, D, H0, 0, 0, 0⟩ : DateTime).Valid :=
    ⟨g1, g2, g3, g4, g5, g6, by norm_num, by norm_num, by norm_num⟩
  have hflip : ∃ k, k < 1000 ∧
      is_peak_hour (addOneHour^[k] (⟨Y, M, D, H0, 0, 0, 0⟩ : DateTime)) rmpHolidays ≠
        is_peak_hour ⟨y, m, d, h, mi, s, us⟩ rmpHolidays := by
    rcases Bool.eq_false_or_eq_true
        (is_peak_hour ⟨y, m, d, h, mi, s, us⟩ rmpHolidays) with hb | hb
    · refine ⟨45 - H0, by omega, ?_⟩
      rw [addOneHour_iterate Y M D H0 g6 (45 - H0)]
      have e2 : (H0 + (45 - H0)) % 24 = 21 := by omega
      have hnp := is_peak_hour_hour21
        ⟨(nextDateIter ((H0 + (45 - H0)) / 24) (Y, M, D)).1,
          (nextDateIter ((H0 + (45 - H0)) / 24) (Y, M, D)).2.1,
          (nextDateIter ((H0 + (45 - H0)) / 24) (Y, M, D)).2.2,
          (H0 + (45 - H0)) % 24, 0, 0, 0⟩ rmpHolidays e2
      rw [hnp, hb]
      decide
    · obtain ⟨j, hj1, hj2, hwj, hhj⟩ := exists_peak_weekday hVD
      refine ⟨24 * j + 15 - H0, by omega, ?_⟩
      rw [addOneHour_iterate Y M D H0 g6 (24 * j + 15 - H0)]
      have e1 : (H0 + (24 * j + 15 - H0)) / 24 = j := by omega
      have e2 : (H0 + (24 * j + 15 - H0)) % 24 = 15 := by omega
      rw [e1, e2]
      have hpk := is_peak_hour_at15
        ⟨(nextDateIter j (Y, M, D)).1, (nextDateIter j (Y, M, D)).2.1,
          (nextDateIter j (Y, M, D)).2.2, 15, 0, 0, 0⟩ rmpHolidays hwj hhj rfl
      rw [hpk, hb]
      decide
  obtain ⟨k, hk, haux, _⟩ := findNextPeakChangeAux_of_flip rmpHolidays
    (is_peak_hour ⟨y, m, d, h, mi, s, us⟩ rmpHolidays) 1000
    ⟨Y, M, D, H0, 0, 0, 0⟩ hflip
  refine ⟨toMicroseconds (addOneHour^[k] (⟨Y, M, D, H0, 0, 0, 0⟩ : DateTime)) -
    toMicroseconds ⟨y, m, d, h, mi, s, us⟩, ?_, ?_⟩
  · unfold find_next_peak_change
    rw [if_pos hna]
    rw [show (⟨y, m, d, h, mi, s, us⟩ : DateTime).replaceToHour =
      (⟨y, m, d, h, 0, 0, 0⟩ : DateTime) from rfl, hx0e, haux]
  · have hiter := addOneHour_iterate_micro hvx0' k
    have hx0m : toMicroseconds (⟨Y, M, D, H0, 0, 0, 0⟩ : DateTime) =
        toMicroseconds ⟨y, m, d, h, 0, 0, 0⟩ + 3600000000 := by
      rw [← hx0e]
      exact toMicroseconds_addOneHour hvt0
    have hdiff : toMicroseconds (⟨y, m, d, h, mi, s, us⟩ : DateTime) =
        toMicroseconds ⟨y, m, d, h, 0, 0, 0⟩ + ((mi * 60 + s : Nat) : ℤ) * 1000000 + us := by
      unfold toMicroseconds
      push_cast
      ring
    rw [hiter.2, hx0m, hdiff]
    have hbound : ((mi * 60 + s : Nat) : ℤ) * 1000000 + (us : ℤ) < 3600000000 := by
      push_cast
      have : (mi : ℤ) ≤ 59 := by exact_mod_cast Nat.le_of_lt_succ h7
      have : (s : ℤ) ≤ 59 := by exact_mod_cast Nat.le_of_lt_succ h8
      have : (us : ℤ) < 1000000 := by exact_mod_cast h9
      nlinarith
    have hknn : (0 : ℤ) ≤ (k : ℤ) * 3600000000 := by omega
    omega

/-- C10 witness: a 19:30 July-Wednesday timestamp is valid and
non-hour-aligned, and the forecaster returns a positive duration. -/
theorem C10_find_next_peak_change_terminates_witness :
    (⟨2024, 7, 10, 19, 30, 0, 0⟩ : DateTime).Valid ∧
    ∃ dur : ℤ, find_next_peak_change ⟨2024, 7, 10, 19, 30, 0, 0⟩ rmpHolidays = some dur ∧
      0 < dur :=
  ⟨by decide, C10_find_next_peak_change_terminates ⟨2024, 7, 10, 19, 30, 0, 0⟩
    (by decide) (Or.inl (by decide))⟩

end ComparePowerCosts
